import Mathlib

/-!
# Verification of the work-log application (`src/main.py`)

A shallow embedding of the core logic of `main.py`: the data-loading and
normalisation pipeline (`get_data`), the mutations (append form, edit dialog,
delete button), the weekly grouping of tab 2, and the AI-summary gating of
tab 3 / `get_ai_summary_stream`.  Timestamps are modelled as structured
civil datetimes; the `"%Y-%m-%d %H:%M:%S"` serialisation used by
`strftime`/`pd.to_datetime` is modelled at the string level, and the ISO
calendar computation follows CPython's `datetime.isocalendar`.
-/

namespace WorkLog

/-- A civil datetime, the model of a Python `datetime` / pandas `Timestamp`
value (fields as written, no timezone arithmetic: the app formats and parses
wall-clock strings only). -/
structure DateTime where
  year : Int
  month : Int
  day : Int
  hour : Int
  minute : Int
  second : Int
deriving DecidableEq, Repr

/-- CPython `_is_leap`. -/
def isLeap (y : Int) : Bool :=
  y % 4 == 0 && (y % 100 != 0 || y % 400 == 0)

/-- CPython `_days_before_year`: days before January 1st of `year`,
counting from the proleptic-Gregorian ordinal origin 0001-01-01 = day 1. -/
def daysBeforeYear (year : Int) : Int :=
  let y := year - 1
  y * 365 + y.ediv 4 - y.ediv 100 + y.ediv 400

/-- CPython `_days_in_month`. -/
def daysInMonth (y m : Int) : Int :=
  if m = 2 then (if isLeap y then 29 else 28)
  else if m = 4 ∨ m = 6 ∨ m = 9 ∨ m = 11 then 30
  else 31

/-- CPython `_days_before_month`. -/
def daysBeforeMonth (y m : Int) : Int :=
  (if m = 1 then 0 else if m = 2 then 31 else if m = 3 then 59
   else if m = 4 then 90 else if m = 5 then 120 else if m = 6 then 151
   else if m = 7 then 181 else if m = 8 then 212 else if m = 9 then 243
   else if m = 10 then 273 else if m = 11 then 304 else 334)
  + (if 2 < m ∧ isLeap y then 1 else 0)

/-- CPython `_ymd2ord`: proleptic-Gregorian ordinal of a date. -/
def ymd2ord (y m d : Int) : Int :=
  daysBeforeYear y + daysBeforeMonth y m + d

/-- CPython `_isoweek1monday`: ordinal of the Monday starting ISO week 1
of `year`. -/
def isoweek1monday (year : Int) : Int :=
  let firstday := ymd2ord year 1 1
  let firstweekday := (firstday + 6) % 7
  let week1monday := firstday - firstweekday
  if 3 < firstweekday then week1monday + 7 else week1monday

/-- CPython `datetime.isocalendar`: `(iso_year, iso_week, iso_weekday)`. -/
def isocalendar (d : DateTime) : Int × Int × Int :=
  let today := ymd2ord d.year d.month d.day
  let week1monday := isoweek1monday d.year
  let week := (today - week1monday).ediv 7
  let day := (today - week1monday).emod 7
  if week < 0 then
    let year := d.year - 1
    let w1 := isoweek1monday year
    (year, (today - w1).ediv 7 + 1, (today - w1).emod 7 + 1)
  else if 52 ≤ week ∧ isoweek1monday (d.year + 1) ≤ today then
    (d.year + 1, 1, day + 1)
  else
    (d.year, week + 1, day + 1)

/-- The derived ISO `(year, week)` key of a datetime. -/
def isoKey (d : DateTime) : Int × Int :=
  ((isocalendar d).1, (isocalendar d).2.1)

/-! ## Fixed-format timestamp strings (`"%Y-%m-%d %H:%M:%S"`) -/

/-- Decimal digit character (code point 48 + digit). -/
def digitChar (n : Nat) : Char :=
  Char.ofNat (48 + n % 10)

/-- Inverse of `digitChar`: the value of an ASCII decimal digit. -/
def parseDigit (c : Char) : Option Nat :=
  if 48 ≤ c.toNat ∧ c.toNat ≤ 57 then some (c.toNat - 48) else none

/-- Two-digit zero-padded field (`%m`, `%d`, `%H`, `%M`, `%S`). -/
def pad2 (n : Int) : String :=
  ⟨[digitChar (n.toNat / 10 % 10), digitChar (n.toNat % 10)]⟩

/-- Four-digit zero-padded field (`%Y`). -/
def pad4 (n : Int) : String :=
  ⟨[digitChar (n.toNat / 1000 % 10), digitChar (n.toNat / 100 % 10),
    digitChar (n.toNat / 10 % 10), digitChar (n.toNat % 10)]⟩

/-- `now.strftime("%Y-%m-%d %H:%M:%S")` (lines 48 and 150 of `main.py`). -/
def strftimeTs (d : DateTime) : String :=
  pad4 d.year ++ "-" ++ pad2 d.month ++ "-" ++ pad2 d.day ++ " " ++
  pad2 d.hour ++ ":" ++ pad2 d.minute ++ ":" ++ pad2 d.second

/-- Parse the character stream of a `"%Y-%m-%d %H:%M:%S"` string. -/
def parseTsChars : List Char → Option DateTime
  | [y1, y2, y3, y4, '-', mo1, mo2, '-', d1, d2, ' ',
     h1, h2, ':', mi1, mi2, ':', se1, se2] =>
    match parseDigit y1, parseDigit y2, parseDigit y3, parseDigit y4,
          parseDigit mo1, parseDigit mo2, parseDigit d1, parseDigit d2,
          parseDigit h1, parseDigit h2, parseDigit mi1, parseDigit mi2,
          parseDigit se1, parseDigit se2 with
    | some a, some b, some c, some d, some e, some f, some g, some h,
      some i, some j, some k, some l, some m, some n =>
      some ⟨(a * 1000 + b * 100 + c * 10 + d : Nat), (e * 10 + f : Nat),
            (g * 10 + h : Nat), (i * 10 + j : Nat), (k * 10 + l : Nat),
            (m * 10 + n : Nat)⟩
    | _, _, _, _, _, _, _, _, _, _, _, _, _, _ => none
  | _ => none

/-- Field validity plus the pandas `Timestamp` year range (the nanosecond
representation only covers 1677-09-21 .. 2262-04-11; we model the whole
years strictly inside that range — out-of-range strings coerce to `NaT`). -/
def inBounds (d : DateTime) : Bool :=
  1678 ≤ d.year && d.year ≤ 2261 &&
  1 ≤ d.month && d.month ≤ 12 &&
  1 ≤ d.day && d.day ≤ daysInMonth d.year d.month &&
  0 ≤ d.hour && d.hour < 24 &&
  0 ≤ d.minute && d.minute < 60 &&
  0 ≤ d.second && d.second < 60

/-- `pd.to_datetime(s, errors='coerce')` on one cell holding a
`"%Y-%m-%d %H:%M:%S"` string: `none` models `NaT`. -/
def pd_to_datetime (s : String) : Option DateTime :=
  match parseTsChars s.data with
  | some d => if inBounds d then some d else none
  | none => none

/-! ## The data model -/

/-- A cell of the `timestamp` column: after `get_data` it holds a parsed
datetime or `NaT`; the freshly appended row (line 150) holds the
`strftime` string before it is serialised and re-read. -/
inductive TsVal
  | NaT
  | dt (d : DateTime)
  | str (s : String)
deriving DecidableEq, Repr

/-- An in-memory row of the DataFrame after normalisation.  `none` in a
numeric/string field models pandas `NaN`; `get_data` always fills these
(`fillna(0)` and the `year_week` expression), so its rows carry `some`. -/
structure Row where
  timestamp : TsVal
  content : String
  week_number : Option Int
  iso_year : Option Int
  iso_week : Option Int
  year_week : Option String
deriving DecidableEq, Repr

/-- A raw row as returned by `conn.read`: the stored timestamp string, the
content, and the stored `week_number` after `pd.to_numeric(errors='coerce')`
(`none` models both an absent column and a non-numeric cell; both are
filled with 0 by `get_data`). -/
structure RawRow where
  timestamp : String
  content : String
  week_number : Option Int
deriving DecidableEq, Repr

/-- Python `f"{y}-W{w:02d}"`. -/
def yearWeekStr (y w : Int) : String :=
  toString y ++ "-W" ++ (if 0 ≤ w ∧ w < 10 then "0" ++ toString w else toString w)

/-- Lines 24–36 of `main.py`, applied to one row: parse the timestamp with
coercion, keep/renormalise `week_number`, and derive `iso_year`, `iso_week`
and `year_week` from the parsed timestamp (0/"" for `NaT`). -/
def normalizeRow (r : RawRow) : Row :=
  let ts := pd_to_datetime r.timestamp
  let iy : Int := match ts with | some d => (isocalendar d).1 | none => 0
  let iw : Int := match ts with | some d => (isocalendar d).2.1 | none => 0
  { timestamp := match ts with | some d => TsVal.dt d | none => TsVal.NaT
    content := r.content
    week_number := some (r.week_number.getD 0)
    iso_year := some iy
    iso_week := some iw
    year_week := some (if iy ≠ 0 then yearWeekStr iy iw else "") }

/-- Result of `conn.read`: either the raised transport/rate-limit exception
or the list of stored rows. -/
inductive ReadResult
  | failure
  | ok (rows : List RawRow)

/-- A pandas DataFrame: its column set and its rows. -/
structure DataFrame where
  cols : List String
  rows : List Row
deriving DecidableEq, Repr

/-- `df.empty`. -/
def df_empty (d : DataFrame) : Bool := d.rows.isEmpty

/-- The canonical column set of the empty-store branch (line 22). -/
def canonicalCols : List String :=
  ["timestamp", "content", "week_number", "iso_year", "iso_week", "year_week"]

/-- What `get_data` hands back to its caller, together with whether the
`st.error` branch ran. -/
structure GetDataResult where
  df : DataFrame
  errorShown : Bool
deriving DecidableEq, Repr

/-- `get_data` (lines 16–41): on a read failure the exception is caught,
`st.error` is shown and a bare `pd.DataFrame()` (no columns) is returned;
on an empty read the canonical empty frame is returned; otherwise every
row is normalised. -/
def get_data : ReadResult → GetDataResult
  | .failure => ⟨⟨[], []⟩, true⟩
  | .ok rows =>
    if rows.isEmpty then ⟨⟨canonicalCols, []⟩, false⟩
    else ⟨⟨canonicalCols, rows.map normalizeRow⟩, false⟩

/-! ## Session state and mutations -/

/-- The slice of `st.session_state` the core logic touches: the cached AI
summary (`'ai_result'`; `none` = key absent = cache EMPTY). -/
structure Session where
  ai_result : Option String
deriving DecidableEq, Repr

/-- `if 'ai_result' in st.session_state: del st.session_state['ai_result']`
(lines 58–59, 159–160, 181–182). -/
def invalidate (s : Session) : Session := { s with ai_result := none }

/-- Exceptions the modelled handlers can raise. -/
inductive PyErr
  | keyError
  | indexError
  | validationError
deriving DecidableEq, Repr

/-- Result of a mutation handler: the DataFrame that was passed to
`save_data`, whether `save_data` (a remote full-table write) ran, and the
session state afterwards. -/
structure MutResult where
  df : List Row
  wrote : Bool
  session : Session
deriving DecidableEq, Repr

/-- The edit flow of `edit_dialog` (lines 51–62) through the submit click.
The dialog body first reads `df.at[index, 'timestamp']` for the caption
(line 53); the pandas `.at` getter raises `KeyError` for a label missing
from the index, so an out-of-range edit aborts there, before the line-56
assignment, `save_data` or the invalidation can run.  In range (the
DataFrame is fresh from `get_data`, so labels coincide with positions) the
submit performs `df.at[index,'content'] = new_content; save_data(df)` and
drops the cached summary. -/
def edit_dialog_submit (df : List Row) (idx : Nat) (newContent : String)
    (s : Session) : Except PyErr MutResult :=
  if h : idx < df.length then
    .ok { df := df.set idx { df.get ⟨idx, h⟩ with content := newContent },
          wrote := true, session := invalidate s }
  else
    .error .keyError

/-- The delete button handler (lines 179–183):
`save_data(df.drop(idx))` then invalidate.  `df.drop` on a label missing
from the index raises `KeyError` before `save_data` is reached. -/
def delete_click (df : List Row) (idx : Nat) (s : Session) :
    Except PyErr MutResult :=
  if idx < df.length then
    .ok { df := df.eraseIdx idx, wrote := true, session := invalidate s }
  else
    .error .keyError

/-- Python whitespace for `str.strip` (ASCII range). -/
def pyIsSpace (c : Char) : Bool :=
  c = ' ' || c = '\t' || c = '\n' || c = '\r' || c = '\x0b' || c = '\x0c'

/-- Truthiness of `content.strip()`: some non-whitespace character. -/
def stripTruthy (s : String) : Bool :=
  s.data.any (fun c => !(pyIsSpace c))

/-- The `new_row` literal of lines 149–156, built from the submitted
content and `now = datetime.now(tz)` in the reference timezone. -/
def new_row (content : String) (now : DateTime) : Row :=
  { timestamp := TsVal.str (strftimeTs now)
    content := content
    week_number := some (isocalendar now).2.1
    iso_year := some (isocalendar now).1
    iso_week := some (isocalendar now).2.1
    year_week := some (yearWeekStr (isocalendar now).1 (isocalendar now).2.1) }

/-- The append form handler (lines 140–161): if `content.strip()` is
truthy, concatenate `new_row`, `save_data`, invalidate; otherwise nothing
happens (no exception is raised, nothing is written). -/
def form_submit (content : String) (now : DateTime) (df : List Row)
    (s : Session) : Except PyErr MutResult :=
  if stripTruthy content then
    .ok { df := df ++ [new_row content now], wrote := true,
          session := invalidate s }
  else
    .ok { df := df, wrote := false, session := s }

/-! ## The week aggregator (tab 2, lines 185–205) -/

/-- The groupby key of a row: `none` models a `NaN` component, and pandas
`groupby` drops such rows from every group. -/
def rowKey (r : Row) : Option (Int × Int) :=
  match r.iso_year, r.iso_week with
  | some y, some w => some (y, w)
  | _, _ => none

/-- Lexicographic `≤` on `(iso_year, iso_week)` keys — how Python compares
the tuples in `sorted(...)`. -/
def keyLe (a b : Int × Int) : Prop :=
  a.1 < b.1 ∨ (a.1 = b.1 ∧ a.2 ≤ b.2)

/-- Lexicographic `<` on keys. -/
def keyLt (a b : Int × Int) : Prop :=
  a.1 < b.1 ∨ (a.1 = b.1 ∧ a.2 < b.2)

/-- The reversed order used by `sorted(groups.groups.keys(), reverse=True)`. -/
def keyGe (a b : Int × Int) : Prop := keyLe b a

instance : DecidableRel keyLe := fun a b => by unfold keyLe; infer_instance

instance : DecidableRel keyLt := fun a b => by unfold keyLt; infer_instance

instance : DecidableRel keyGe := fun a b => by unfold keyGe keyLe; infer_instance

/-- The distinct group keys of `df.groupby(['iso_year', 'iso_week'])`. -/
def groupKeys (df : List Row) : List (Int × Int) :=
  (df.filterMap rowKey).dedup

/-- `sorted(groups.groups.keys(), reverse=True)` (line 198). -/
def sortedKeysDesc (df : List Row) : List (Int × Int) :=
  List.insertionSort keyGe (groupKeys df)

/-- `groups.get_group((yr, wk))` (line 201): the rows whose key is `k`, in
storage order. -/
def get_group (df : List Row) (k : Int × Int) : List Row :=
  df.filter (fun r => decide (rowKey r = some k))

/-- The chronological sort key of a row: pandas compares `Timestamp`s by
absolute time; `NaT` sorts last (`none`). -/
def tsNum (r : Row) : Option Int :=
  match r.timestamp with
  | .dt d => some (ymd2ord d.year d.month d.day * 86400 +
                   d.hour * 3600 + d.minute * 60 + d.second)
  | .NaT => none
  | .str s =>
    match pd_to_datetime s with
    | some d => some (ymd2ord d.year d.month d.day * 86400 +
                      d.hour * 3600 + d.minute * 60 + d.second)
    | none => none

/-- `≤` on optional sort keys with `none` (`NaT`) greatest, as in
`sort_values(..., na_position='last')`, the pandas default. -/
def optLe : Option Int → Option Int → Prop
  | _, none => True
  | none, some _ => False
  | some a, some b => a ≤ b

instance : DecidableRel optLe := fun a b => by
  unfold optLe; cases a <;> cases b <;> infer_instance

/-- Row comparison for `sort_values('timestamp')`. -/
def tsLe (a b : Row) : Prop := optLe (tsNum a) (tsNum b)

instance : DecidableRel tsLe := fun a b => by unfold tsLe; infer_instance

/-- `g_data = groups.get_group((yr, wk)).sort_values('timestamp')`
(line 201): ascending by timestamp. -/
def sort_values (g : List Row) : List Row :=
  List.insertionSort tsLe g

/-- The whole of tab 2's grouping pass: the groups in display order, most
recent week first, each sorted chronologically (lines 197–201). -/
def orderedGroups (df : List Row) : List ((Int × Int) × List Row) :=
  (sortedKeysDesc df).map fun k => (k, sort_values (get_group df k))

/-- The concatenation of the displayed groups — "the grouping, read back
as a collection". -/
def flattenGroups (df : List Row) : List Row :=
  (orderedGroups df).flatMap fun p => p.2

/-- `currentWeekKey`: the ISO key of `datetime.now(tz)` in the reference
timezone (lines 73–76 and 186–189). -/
def currentWeekKey (now : DateTime) : Int × Int := isoKey now

/-! ## AI summary (lines 65–109 and 207–224) -/

/-- `week_df` of line 86: the rows whose stored ISO fields match the
current week key. -/
def week_scope (df : List Row) (now : DateTime) : List Row :=
  df.filter fun r =>
    decide (r.iso_year = some (currentWeekKey now).1 ∧
            r.iso_week = some (currentWeekKey now).2)

/-- The fixed sentinel of line 89. -/
def sentinelMsg : String := "本周暂无记录。"

/-- The prompt of lines 92–93. -/
def mkPrompt (wk : List Row) : String :=
  "你是一个高效的科研助手，请帮我总结本周工作日志：\n\n" ++
  String.intercalate "\n" (wk.map fun r => "- " ++ r.content)

/-- What `get_ai_summary_stream` does, up to the external call: either it
short-circuits with the sentinel (line 89) or it invokes the completion
endpoint with the built prompt (line 95). -/
inductive SummaryOutcome
  | sentinel (msg : String)
  | producerCall (prompt : String)
deriving DecidableEq, Repr

/-- `get_ai_summary_stream` (lines 65–106), given the current time in the
reference timezone.  The `df` handed to it comes from `get_data`, so the
`iso_year`/`iso_week` columns are present and the recompute branch of
lines 79–83 is dead. -/
def get_ai_summary_stream (df : List Row) (now : DateTime) : SummaryOutcome :=
  if (week_scope df now).isEmpty then .sentinel sentinelMsg
  else .producerCall (mkPrompt (week_scope df now))

/-- What tab 3 showed and did to the session. -/
structure Tab3Result where
  shown : String
  producerCalled : Bool
  session : Session
deriving DecidableEq, Repr

/-- Tab 3 (lines 210–219): if `'ai_result'` is cached, display it with no
external call; otherwise consume the stream, display the accumulated text
and cache it.  `producer` models the external completion service's
response to a prompt. -/
def tab3_render (producer : String → String) (df : List Row) (now : DateTime)
    (s : Session) : Tab3Result :=
  match s.ai_result with
  | some t => ⟨t, false, s⟩
  | none =>
    match get_ai_summary_stream df now with
    | .sentinel m => ⟨m, false, { s with ai_result := some m }⟩
    | .producerCall p =>
      ⟨producer p, true, { s with ai_result := some (producer p) }⟩

/-! ## Basic lemmas -/

theorem parseDigit_digitChar (n : Nat) (h : n < 10) :
    parseDigit (digitChar n) = some n := by
  interval_cases n <;> decide

theorem strftimeTs_data (d : DateTime) :
    (strftimeTs d).data =
      [digitChar (d.year.toNat / 1000 % 10), digitChar (d.year.toNat / 100 % 10),
       digitChar (d.year.toNat / 10 % 10), digitChar (d.year.toNat % 10), '-',
       digitChar (d.month.toNat / 10 % 10), digitChar (d.month.toNat % 10), '-',
       digitChar (d.day.toNat / 10 % 10), digitChar (d.day.toNat % 10), ' ',
       digitChar (d.hour.toNat / 10 % 10), digitChar (d.hour.toNat % 10), ':',
       digitChar (d.minute.toNat / 10 % 10), digitChar (d.minute.toNat % 10), ':',
       digitChar (d.second.toNat / 10 % 10), digitChar (d.second.toNat % 10)] :=
  rfl

theorem inBounds_iff (d : DateTime) :
    inBounds d = true ↔
      (1678 ≤ d.year ∧ d.year ≤ 2261 ∧ 1 ≤ d.month ∧ d.month ≤ 12 ∧
       1 ≤ d.day ∧ d.day ≤ daysInMonth d.year d.month ∧
       0 ≤ d.hour ∧ d.hour < 24 ∧ 0 ≤ d.minute ∧ d.minute < 60 ∧
       0 ≤ d.second ∧ d.second < 60) := by
  unfold inBounds
  simp only [Bool.and_eq_true, decide_eq_true_eq]
  tauto

/-- The `"%Y-%m-%d %H:%M:%S"` round trip: formatting an in-range datetime
and re-parsing it recovers the datetime, so the appended row's timestamp
string denotes exactly the append-time instant. -/
theorem pd_to_datetime_strftimeTs (d : DateTime) (h : inBounds d = true) :
    pd_to_datetime (strftimeTs d) = some d := by
  obtain ⟨h1, h2, h3, h4, h5, h6, h7, h8, h9, h10, h11, h12⟩ := (inBounds_iff d).1 h
  have pd : ∀ n : Nat, parseDigit (digitChar (n % 10)) = some (n % 10) :=
    fun n => parseDigit_digitChar _ (Nat.mod_lt _ (by norm_num))
  unfold pd_to_datetime
  rw [strftimeTs_data]
  simp only [parseTsChars, pd]
  have hd :
      (⟨(d.year.toNat / 1000 % 10 * 1000 + d.year.toNat / 100 % 10 * 100 +
           d.year.toNat / 10 % 10 * 10 + d.year.toNat % 10 : Nat),
        (d.month.toNat / 10 % 10 * 10 + d.month.toNat % 10 : Nat),
        (d.day.toNat / 10 % 10 * 10 + d.day.toNat % 10 : Nat),
        (d.hour.toNat / 10 % 10 * 10 + d.hour.toNat % 10 : Nat),
        (d.minute.toNat / 10 % 10 * 10 + d.minute.toNat % 10 : Nat),
        (d.second.toNat / 10 % 10 * 10 + d.second.toNat % 10 : Nat)⟩ : DateTime) = d := by
    have hday : d.day ≤ 31 := by
      have : daysInMonth d.year d.month ≤ 31 := by
        unfold daysInMonth
        split
        · split <;> omega
        · split <;> omega
      omega
    have e4 : ∀ n : Int, 0 ≤ n → n ≤ 9999 →
        ((n.toNat / 1000 % 10 * 1000 + n.toNat / 100 % 10 * 100 +
          n.toNat / 10 % 10 * 10 + n.toNat % 10 : Nat) : Int) = n := by
      intro n hn hn9; omega
    have e2 : ∀ n : Int, 0 ≤ n → n ≤ 99 →
        ((n.toNat / 10 % 10 * 10 + n.toNat % 10 : Nat) : Int) = n := by
      intro n hn hn9; omega
    rw [show ((d.year.toNat / 1000 % 10 * 1000 + d.year.toNat / 100 % 10 * 100 +
          d.year.toNat / 10 % 10 * 10 + d.year.toNat % 10 : Nat) : Int) = d.year from
        e4 d.year (by omega) (by omega),
      e2 d.month (by omega) (by omega), e2 d.day (by omega) (by omega),
      e2 d.hour (by omega) (by omega), e2 d.minute (by omega) (by omega),
      e2 d.second (by omega) (by omega)]
  rw [hd, h]
  rfl

/-- The year returned by `isocalendar` is never below `year - 1`: the
algorithm only ever moves one year down (early January) or one year up
(late December). -/
theorem isocalendar_year_lb (d : DateTime) : d.year - 1 ≤ (isocalendar d).1 := by
  unfold isocalendar
  dsimp only
  split
  · omega
  · split <;> dsimp only <;> omega

/-! ## Order instances for the sort relations -/

instance : IsTotal (Int × Int) keyGe :=
  ⟨fun a b => by unfold keyGe keyLe; omega⟩

instance : IsTrans (Int × Int) keyGe :=
  ⟨fun a b c hab hbc => by unfold keyGe keyLe at *; omega⟩

instance : IsAntisymm (Int × Int) keyGe :=
  ⟨fun a b hab hba => by
    obtain ⟨a1, a2⟩ := a
    obtain ⟨b1, b2⟩ := b
    unfold keyGe keyLe at hab hba
    simp only [Prod.mk.injEq]
    constructor <;> omega⟩

theorem optLe_total (a b : Option Int) : optLe a b ∨ optLe b a := by
  cases a <;> cases b <;> simp [optLe] <;> omega

theorem optLe_trans (a b c : Option Int) (hab : optLe a b) (hbc : optLe b c) :
    optLe a c := by
  cases a <;> cases b <;> cases c <;> simp_all [optLe] <;> omega

instance : IsTotal Row tsLe := ⟨fun a b => optLe_total _ _⟩

instance : IsTrans Row tsLe := ⟨fun a b c => optLe_trans _ _ _⟩

/-! ## Accessors and sample data used by the claim theorems -/

/-- The DataFrame passed to `save_data` by a handler, `none` if it raised. -/
def mutDf : Except PyErr MutResult → Option (List Row)
  | .ok r => some r.df
  | .error _ => none

/-- The session state after a handler, `none` if it raised. -/
def mutSession : Except PyErr MutResult → Option Session
  | .ok r => some r.session
  | .error _ => none

/-- The ISO `(year, week)` key denoted by a timestamp cell, recomputed
independently from the cell itself. -/
def isoKeyOfTs : TsVal → Option (Int × Int)
  | .dt d => some (isoKey d)
  | .str s => (pd_to_datetime s).map isoKey
  | .NaT => none

/-- A stored row dated Monday 2024-12-30 10:00 (ISO week (2025, 1)). -/
def sampleRaw1 : RawRow := ⟨"2024-12-30 10:00:00", "log a", none⟩

/-- A stored row dated Thursday 2025-01-02 09:00 (ISO week (2025, 1)). -/
def sampleRaw2 : RawRow := ⟨"2025-01-02 09:00:00", "log b", none⟩

/-- `sampleRaw1` after `get_data` normalisation. -/
def sampleRow1 : Row := normalizeRow sampleRaw1

/-- `sampleRaw2` after `get_data` normalisation. -/
def sampleRow2 : Row := normalizeRow sampleRaw2

/-! ## The claims -/

/-- C1 (amended): at an out-of-range position both operations abort with
`KeyError` — not `IndexError` — before `save_data` can run: the edit
dialog at its `df.at[index, 'timestamp']` caption read (line 53), the
delete handler at `df.drop` (line 180).  Neither passes anything to
`save_data`: the collection is untouched and no remote write occurs. -/
theorem C1_out_of_range (df : List Row) (idx : Nat) (c : String) (s : Session)
    (h : df.length ≤ idx) :
    delete_click df idx s = .error .keyError ∧
    edit_dialog_submit df idx c s = .error .keyError ∧
    mutDf (delete_click df idx s) = none ∧
    mutDf (edit_dialog_submit df idx c s) = none := by
  have hd : delete_click df idx s = .error .keyError := by
    unfold delete_click
    rw [if_neg (by omega)]
  have he : edit_dialog_submit df idx c s = .error .keyError := by
    unfold edit_dialog_submit
    rw [dif_neg (by omega)]
  exact ⟨hd, he, by rw [hd]; rfl, by rw [he]; rfl⟩

/-- C1 witness: both amended behaviours at a concrete out-of-range index
of a one-row collection. -/
theorem C1_out_of_range_witness :
    delete_click [sampleRow1] 3 ⟨some "cached"⟩ = .error .keyError ∧
    edit_dialog_submit [sampleRow1] 3 "x" ⟨some "cached"⟩ = .error .keyError ∧
    mutDf (delete_click [sampleRow1] 3 ⟨some "cached"⟩) = none ∧
    mutDf (edit_dialog_submit [sampleRow1] 3 "x" ⟨some "cached"⟩) = none :=
  C1_out_of_range [sampleRow1] 3 "x" ⟨some "cached"⟩ (by decide)

/-- C1 counterexample: the claim says out-of-range `editAt` and `deleteAt`
raise `IndexError`; at index 5 of a one-row collection both in fact raise
`KeyError`, which is a different exception. -/
theorem C1_counterexample :
    edit_dialog_submit [sampleRow1] 5 "x" ⟨some "cached"⟩ = .error .keyError ∧
    delete_click [sampleRow1] 5 ⟨some "cached"⟩ = .error .keyError ∧
    edit_dialog_submit [sampleRow1] 5 "x" ⟨some "cached"⟩ ≠ .error .indexError ∧
    delete_click [sampleRow1] 5 ⟨some "cached"⟩ ≠ .error .indexError ∧
    PyErr.keyError ≠ PyErr.indexError := by
  refine ⟨rfl, rfl, ?_, ?_, by decide⟩
  · intro h
    rw [show edit_dialog_submit [sampleRow1] 5 "x" ⟨some "cached"⟩ =
        .error .keyError from rfl] at h
    injection h with h2
    exact PyErr.noConfusion h2
  · intro h
    rw [show delete_click [sampleRow1] 5 ⟨some "cached"⟩ =
        .error .keyError from rfl] at h
    injection h with h2
    exact PyErr.noConfusion h2

/-- C2 (amended): on a remote read failure `get_data` catches the
exception, shows an error message, and returns an empty `DataFrame` with
no columns instead of propagating a typed error; its emptiness is exactly
that of a legitimately empty store, the two results differing only in the
column set. -/
theorem C2_fetch_failure :
    get_data .failure = ⟨⟨[], []⟩, true⟩ ∧
    get_data (.ok []) = ⟨⟨canonicalCols, []⟩, false⟩ ∧
    df_empty (get_data .failure).df = true ∧
    df_empty (get_data (.ok [])).df = true ∧
    (get_data .failure).df.cols ≠ (get_data (.ok [])).df.cols := by decide

/-- C2 counterexample: the failed read is not reported upward as a typed
failure — `get_data` returns normally, and the rows it hands back are the
very same empty collection a legitimately empty store produces. -/
theorem C2_counterexample :
    (get_data .failure).df.rows = [] ∧
    (get_data (.ok [])).df.rows = [] ∧
    df_empty (get_data .failure).df = df_empty (get_data (.ok [])).df := by decide

/-- C3 (amended): empty or whitespace-only content leaves the collection
unchanged, triggers no write and leaves the session untouched — but no
`ValidationError` (nor any other exception) is raised: the submit branch
silently does nothing. -/
theorem C3_empty_content (content : String) (now : DateTime) (df : List Row)
    (s : Session) (h : stripTruthy content = false) :
    form_submit content now df s = .ok { df := df, wrote := false, session := s } := by
  unfold form_submit
  rw [h]
  rfl

/-- C3 witness: whitespace-only content at a concrete state. -/
theorem C3_empty_content_witness :
    form_submit " \t " ⟨2025, 1, 2, 9, 0, 0⟩ [sampleRow1] ⟨some "cached"⟩ =
      .ok { df := [sampleRow1], wrote := false, session := ⟨some "cached"⟩ } :=
  C3_empty_content " \t " ⟨2025, 1, 2, 9, 0, 0⟩ [sampleRow1] ⟨some "cached"⟩ (by decide)

/-- C3 counterexample: on whitespace-only input the handler returns
normally (`.ok`, no `ValidationError` raised anywhere) — the rejection is
silent. -/
theorem C3_counterexample :
    form_submit "  " ⟨2025, 1, 2, 9, 0, 0⟩ [] ⟨none⟩ =
      .ok { df := [], wrote := false, session := ⟨none⟩ } := by rfl

/-- C4: appending non-empty content grows the collection by exactly one
row, appended at the end, and the new row's stored `iso_year`/`iso_week`
equal the independent ISO-8601 computation applied to its own timestamp
string (the `strftime`d append instant, which round-trips through
`pd.to_datetime`). -/
theorem C4_append (content : String) (now : DateTime) (df : List Row)
    (s : Session) (hc : stripTruthy content = true) (hb : inBounds now = true) :
    form_submit content now df s =
      .ok { df := df ++ [new_row content now], wrote := true,
            session := invalidate s } ∧
    (df ++ [new_row content now]).length = df.length + 1 ∧
    (df ++ [new_row content now]).getLast? = some (new_row content now) ∧
    isoKeyOfTs (new_row content now).timestamp = some (isoKey now) ∧
    (new_row content now).iso_year = some (isoKey now).1 ∧
    (new_row content now).iso_week = some (isoKey now).2 := by
  refine ⟨?_, by simp, List.getLast?_concat _, ?_, rfl, rfl⟩
  · unfold form_submit
    rw [hc]
    rfl
  · show (pd_to_datetime (strftimeTs now)).map isoKey = some (isoKey now)
    rw [pd_to_datetime_strftimeTs now hb]
    rfl

/-- C4 witness: a concrete append on 2026-10-12 15:30:00 (ISO week
(2026, 42)). -/
theorem C4_append_witness :
    form_submit "did stuff" ⟨2026, 10, 12, 15, 30, 0⟩ [sampleRow1] ⟨some "cached"⟩ =
      .ok { df := [sampleRow1] ++ [new_row "did stuff" ⟨2026, 10, 12, 15, 30, 0⟩],
            wrote := true, session := invalidate ⟨some "cached"⟩ } ∧
    ([sampleRow1] ++ [new_row "did stuff" ⟨2026, 10, 12, 15, 30, 0⟩]).length =
      [sampleRow1].length + 1 ∧
    ([sampleRow1] ++ [new_row "did stuff" ⟨2026, 10, 12, 15, 30, 0⟩]).getLast? =
      some (new_row "did stuff" ⟨2026, 10, 12, 15, 30, 0⟩) ∧
    isoKeyOfTs (new_row "did stuff" ⟨2026, 10, 12, 15, 30, 0⟩).timestamp =
      some (isoKey ⟨2026, 10, 12, 15, 30, 0⟩) ∧
    (new_row "did stuff" ⟨2026, 10, 12, 15, 30, 0⟩).iso_year =
      some (isoKey ⟨2026, 10, 12, 15, 30, 0⟩).1 ∧
    (new_row "did stuff" ⟨2026, 10, 12, 15, 30, 0⟩).iso_week =
      some (isoKey ⟨2026, 10, 12, 15, 30, 0⟩).2 :=
  C4_append "did stuff" ⟨2026, 10, 12, 15, 30, 0⟩ [sampleRow1] ⟨some "cached"⟩
    (by decide) (by decide)

/-- C7: each successful mutation — append with non-empty content, an edit
submit, an in-range delete — ends with the `'ai_result'` key absent from
the session state, even when the cache was READY beforehand. -/
theorem C7_invalidation (df : List Row) (idx : Nat) (c content : String)
    (now : DateTime) (s : Session) (t : String)
    (hready : s.ai_result = some t)
    (happend : stripTruthy content = true)
    (hidx : idx < df.length) :
    (mutSession (form_submit content now df s)).map Session.ai_result = some none ∧
    (mutSession (edit_dialog_submit df idx c s)).map Session.ai_result = some none ∧
    (mutSession (delete_click df idx s)).map Session.ai_result = some none := by
  refine ⟨?_, ?_, ?_⟩
  · unfold form_submit
    rw [happend]
    rfl
  · unfold edit_dialog_submit
    rw [dif_pos hidx]
    rfl
  · unfold delete_click
    rw [if_pos hidx]
    rfl

/-- C7 witness: the three mutations at a concrete READY state. -/
theorem C7_invalidation_witness :
    (mutSession (form_submit "hi" ⟨2026, 10, 12, 15, 30, 0⟩ [sampleRow1]
        ⟨some "old summary"⟩)).map Session.ai_result = some none ∧
    (mutSession (edit_dialog_submit [sampleRow1] 0 "new text"
        ⟨some "old summary"⟩)).map Session.ai_result = some none ∧
    (mutSession (delete_click [sampleRow1] 0
        ⟨some "old summary"⟩)).map Session.ai_result = some none :=
  C7_invalidation [sampleRow1] 0 "new text" "hi" ⟨2026, 10, 12, 15, 30, 0⟩
    ⟨some "old summary"⟩ "old summary" rfl (by decide) (by decide)

/-- C9: an in-range edit passes to `save_data` exactly the old collection
with only the `content` of the edited row replaced: same length, the
edited row keeps its timestamp and derived week fields, and every other
row is untouched. -/
theorem C9_edit_frame (df : List Row) (idx : Nat) (c : String) (s : Session)
    (h : idx < df.length) :
    mutDf (edit_dialog_submit df idx c s) =
      some (df.set idx { df.get ⟨idx, h⟩ with content := c }) ∧
    (df.set idx { df.get ⟨idx, h⟩ with content := c }).length = df.length ∧
    (df.set idx { df.get ⟨idx, h⟩ with content := c })[idx]? =
      some { df.get ⟨idx, h⟩ with content := c } ∧
    ({ df.get ⟨idx, h⟩ with content := c }).timestamp = (df.get ⟨idx, h⟩).timestamp ∧
    ({ df.get ⟨idx, h⟩ with content := c }).iso_year = (df.get ⟨idx, h⟩).iso_year ∧
    ({ df.get ⟨idx, h⟩ with content := c }).iso_week = (df.get ⟨idx, h⟩).iso_week ∧
    ∀ j, j ≠ idx → (df.set idx { df.get ⟨idx, h⟩ with content := c })[j]? = df[j]? := by
  refine ⟨?_, List.length_set df idx _, List.getElem?_set_self h, rfl, rfl, rfl, ?_⟩
  · unfold edit_dialog_submit
    rw [dif_pos h]
    rfl
  · intro j hj
    exact List.getElem?_set_ne (fun e => hj e.symm)

/-- C9 witness: editing row 0 of a two-row collection leaves row 1 and the
edited row's timestamp/week fields unchanged. -/
theorem C9_edit_frame_witness :
    mutDf (edit_dialog_submit [sampleRow1, sampleRow2] 0 "edited" ⟨some "cached"⟩) =
      some ([sampleRow1, sampleRow2].set 0
        { [sampleRow1, sampleRow2].get ⟨0, by decide⟩ with content := "edited" }) ∧
    ([sampleRow1, sampleRow2].set 0
        { [sampleRow1, sampleRow2].get ⟨0, by decide⟩ with content := "edited" })[1]? =
      [sampleRow1, sampleRow2][1]? :=
  ⟨(C9_edit_frame [sampleRow1, sampleRow2] 0 "edited" ⟨some "cached"⟩ (by decide)).1,
   (C9_edit_frame [sampleRow1, sampleRow2] 0 "edited" ⟨some "cached"⟩
      (by decide)).2.2.2.2.2.2 1 (by decide)⟩


/-- The groupby key of a row is `some k` exactly when its stored ISO
fields are `k`. -/
theorem rowKey_eq_iff (r : Row) (k : Int × Int) :
    rowKey r = some k ↔ (r.iso_year = some k.1 ∧ r.iso_week = some k.2) := by
  unfold rowKey
  rcases r with ⟨ts, co, wn, iy, iw, yw⟩
  rcases iy with _ | y <;> rcases iw with _ | w <;>
    simp [Prod.ext_iff, and_comm]

/-- `week_df` of `get_ai_summary_stream` is exactly the current week's
group. -/
theorem week_scope_eq_get_group (df : List Row) (now : DateTime) :
    week_scope df now = get_group df (currentWeekKey now) := by
  unfold week_scope get_group
  refine List.filter_congr fun r _ => ?_
  rw [decide_eq_decide]
  exact (rowKey_eq_iff r (currentWeekKey now)).symm

/-- C8: with the summary cache EMPTY (`'ai_result'` absent) and the
current week's group empty, tab 3 shows the fixed sentinel and the
external completion endpoint is never invoked. -/
theorem C8_sentinel (producer : String → String) (df : List Row)
    (now : DateTime) (s : Session) (hcache : s.ai_result = none)
    (hgrp : get_group df (currentWeekKey now) = []) :
    tab3_render producer df now s =
      ⟨sentinelMsg, false, { s with ai_result := some sentinelMsg }⟩ ∧
    get_ai_summary_stream df now = .sentinel sentinelMsg := by
  have hw : week_scope df now = [] := by
    rw [week_scope_eq_get_group, hgrp]
  have hstream : get_ai_summary_stream df now = .sentinel sentinelMsg := by
    unfold get_ai_summary_stream
    rw [hw]
    rfl
  refine ⟨?_, hstream⟩
  unfold tab3_render
  rw [hcache, hstream]

/-- C8 witness: a store holding only a week-(2025, 1) entry, viewed on
2026-10-12 (ISO week (2026, 42)) with an empty cache. -/
theorem C8_sentinel_witness :
    tab3_render (fun _ => "producer output") [sampleRow1]
        ⟨2026, 10, 12, 15, 30, 0⟩ ⟨none⟩ =
      ⟨sentinelMsg, false, ⟨some sentinelMsg⟩⟩ ∧
    get_ai_summary_stream [sampleRow1] ⟨2026, 10, 12, 15, 30, 0⟩ =
      .sentinel sentinelMsg :=
  C8_sentinel (fun _ => "producer output") [sampleRow1]
    ⟨2026, 10, 12, 15, 30, 0⟩ ⟨none⟩ rfl (by decide)

/-- C5: the 2024-12-30 10:00 and 2025-01-02 09:00 entries — straddling
the calendar year boundary — group into the single `WeekGroup` keyed
`(2025, 1)` with the Dec-30 entry first, whichever order the store holds
them in; and within any group of any collection the displayed entries are
sorted ascending by timestamp. -/
theorem C5_cross_year_grouping :
    (∀ (df : List Row) (k : Int × Int),
      List.Sorted tsLe (sort_values (get_group df k))) ∧
    orderedGroups (get_data (.ok [sampleRaw1, sampleRaw2])).df.rows =
      [((2025, 1), [sampleRow1, sampleRow2])] ∧
    orderedGroups (get_data (.ok [sampleRaw2, sampleRaw1])).df.rows =
      [((2025, 1), [sampleRow1, sampleRow2])] ∧
    rowKey sampleRow1 = some (2025, 1) ∧
    rowKey sampleRow2 = some (2025, 1) ∧
    sampleRow1.timestamp = TsVal.dt ⟨2024, 12, 30, 10, 0, 0⟩ ∧
    sampleRow2.timestamp = TsVal.dt ⟨2025, 1, 2, 9, 0, 0⟩ :=
  ⟨fun _ _ => List.sorted_insertionSort tsLe _,
   by decide, by decide, by decide, by decide, by decide, by decide⟩

/-! ## Key-order helper lemmas -/

theorem keyLt_irrefl (a : Int × Int) : ¬ keyLt a a := by
  unfold keyLt
  omega

theorem keyLt_asymm (a b : Int × Int) (h1 : keyLt a b) (h2 : keyLt b a) :
    False := by
  unfold keyLt at h1 h2
  omega

theorem keyLt_of_keyGe_ne (a b : Int × Int) (h : keyGe a b) (hne : a ≠ b) :
    keyLt b a := by
  unfold keyGe keyLe at h
  unfold keyLt
  rw [Ne, Prod.ext_iff, not_and] at hne
  omega

theorem sortedKeysDesc_sorted (df : List Row) :
    List.Sorted keyGe (sortedKeysDesc df) :=
  List.sorted_insertionSort keyGe _

theorem sortedKeysDesc_nodup (df : List Row) :
    (sortedKeysDesc df).Nodup :=
  ((List.perm_insertionSort keyGe _).nodup_iff).2 (List.nodup_dedup _)

/-- The key list of tab 2's display is strictly descending. -/
theorem sortedKeysDesc_strict (df : List Row) :
    List.Pairwise (fun a b => keyLt b a) (sortedKeysDesc df) := by
  have hc : List.Pairwise (fun a b : Int × Int => keyGe a b ∧ a ≠ b)
      (sortedKeysDesc df) :=
    List.pairwise_and_iff.2 ⟨sortedKeysDesc_sorted df, sortedKeysDesc_nodup df⟩
  exact hc.imp fun h => keyLt_of_keyGe_ne _ _ h.1 h.2

theorem mem_get_group_key (df : List Row) (x : Int × Int) (r : Row)
    (h : r ∈ get_group df x) : rowKey r = some x := by
  unfold get_group at h
  exact of_decide_eq_true (List.mem_filter.1 h).2

theorem mem_groupKeys_iff (df : List Row) (k : Int × Int) :
    k ∈ groupKeys df ↔ ∃ r ∈ df, rowKey r = some k := by
  unfold groupKeys
  rw [List.mem_dedup, List.mem_filterMap]

theorem mem_sortedKeysDesc_iff (df : List Row) (k : Int × Int) :
    k ∈ sortedKeysDesc df ↔ ∃ r ∈ df, rowKey r = some k := by
  unfold sortedKeysDesc
  rw [List.mem_insertionSort, mem_groupKeys_iff]

theorem mem_get_group_iff (df : List Row) (k : Int × Int) (r : Row) :
    r ∈ get_group df k ↔ r ∈ df ∧ rowKey r = some k := by
  unfold get_group
  rw [List.mem_filter]
  simp only [decide_eq_true_eq]

/-! ## Idempotence machinery for C6 -/

theorem flattenGroups_eq (df : List Row) :
    flattenGroups df =
      (sortedKeysDesc df).flatMap fun k => sort_values (get_group df k) := by
  unfold flattenGroups orderedGroups
  rw [List.flatMap_map]

theorem mem_flattenGroups_iff (df : List Row) (r : Row) :
    r ∈ flattenGroups df ↔ r ∈ df ∧ ∃ k, rowKey r = some k := by
  rw [flattenGroups_eq, List.mem_flatMap]
  constructor
  · rintro ⟨k, _, hr⟩
    rw [sort_values, List.mem_insertionSort] at hr
    have hk := mem_get_group_key df k r hr
    exact ⟨(mem_get_group_iff df k r).1 hr |>.1, k, hk⟩
  · rintro ⟨hrdf, k, hk⟩
    refine ⟨k, (mem_sortedKeysDesc_iff df k).2 ⟨r, hrdf, hk⟩, ?_⟩
    rw [sort_values, List.mem_insertionSort]
    exact (mem_get_group_iff df k r).2 ⟨hrdf, hk⟩

theorem groupKeys_flattenGroups (df : List Row) (k : Int × Int) :
    k ∈ groupKeys (flattenGroups df) ↔ k ∈ groupKeys df := by
  rw [mem_groupKeys_iff, mem_groupKeys_iff]
  constructor
  · rintro ⟨r, hr, hk⟩
    exact ⟨r, ((mem_flattenGroups_iff df r).1 hr).1, hk⟩
  · rintro ⟨r, hr, hk⟩
    exact ⟨r, (mem_flattenGroups_iff df r).2 ⟨hr, k, hk⟩, hk⟩

theorem sortedKeysDesc_flattenGroups (df : List Row) :
    sortedKeysDesc (flattenGroups df) = sortedKeysDesc df := by
  have hperm : List.Perm (groupKeys (flattenGroups df)) (groupKeys df) :=
    (List.perm_ext_iff_of_nodup (List.nodup_dedup _) (List.nodup_dedup _)).2
      (groupKeys_flattenGroups df)
  have hperm2 : List.Perm (sortedKeysDesc (flattenGroups df)) (sortedKeysDesc df) :=
    ((List.perm_insertionSort keyGe _).trans hperm).trans
      (List.perm_insertionSort keyGe _).symm
  exact List.eq_of_perm_of_sorted hperm2
    (sortedKeysDesc_sorted _) (sortedKeysDesc_sorted _)

theorem filter_flatMap_groups (keys : List (Int × Int)) (df : List Row)
    (k : Int × Int) (hnd : keys.Nodup) :
    (keys.flatMap fun x => sort_values (get_group df x)).filter
        (fun r => decide (rowKey r = some k)) =
      if k ∈ keys then sort_values (get_group df k) else [] := by
  induction keys with
  | nil => simp
  | cons a t ih =>
    rw [List.flatMap_cons, List.filter_append, ih (List.Nodup.of_cons hnd)]
    by_cases hak : a = k
    · subst hak
      have h1 : (sort_values (get_group df a)).filter
          (fun r => decide (rowKey r = some a)) = sort_values (get_group df a) := by
        rw [List.filter_eq_self]
        intro r hr
        rw [sort_values, List.mem_insertionSort] at hr
        exact decide_eq_true (mem_get_group_key df a r hr)
      have hat : a ∉ t := (List.nodup_cons.1 hnd).1
      rw [h1, if_neg hat, if_pos (List.mem_cons_self a t), List.append_nil]
    · have h1 : (sort_values (get_group df a)).filter
          (fun r => decide (rowKey r = some k)) = [] := by
        rw [List.filter_eq_nil_iff]
        intro r hr
        rw [sort_values, List.mem_insertionSort] at hr
        have := mem_get_group_key df a r hr
        simp only [decide_eq_true_eq, this]
        intro hc
        exact hak (by injection hc)
      have hiff : (k ∈ a :: t) ↔ (k ∈ t) :=
        ⟨fun h => (List.mem_cons.1 h).resolve_left fun e => hak e.symm,
         List.mem_cons_of_mem a⟩
      rw [h1, List.nil_append]
      exact (if_congr hiff rfl rfl).symm

theorem get_group_flattenGroups (df : List Row) (k : Int × Int)
    (hk : k ∈ sortedKeysDesc df) :
    get_group (flattenGroups df) k = sort_values (get_group df k) := by
  rw [flattenGroups_eq]
  show ((sortedKeysDesc df).flatMap fun x => sort_values (get_group df x)).filter
      (fun r => decide (rowKey r = some k)) = sort_values (get_group df k)
  rw [filter_flatMap_groups _ df k (sortedKeysDesc_nodup df), if_pos hk]

/-- C6: regrouping the displayed grouping reproduces it exactly
(idempotence), and the group keys are strictly descending — in particular
duplicate-free — in lexicographic `(iso_year, iso_week)` order. -/
theorem C6_idempotent_descending (df : List Row) :
    orderedGroups (flattenGroups df) = orderedGroups df ∧
    List.Pairwise (fun a b => keyLt b a) (sortedKeysDesc df) ∧
    (sortedKeysDesc df).Nodup ∧
    (orderedGroups df).map Prod.fst = sortedKeysDesc df := by
  refine ⟨?_, sortedKeysDesc_strict df, sortedKeysDesc_nodup df, by
    unfold orderedGroups
    rw [List.map_map]
    exact List.map_id' _⟩
  unfold orderedGroups
  rw [sortedKeysDesc_flattenGroups]
  refine List.map_congr_left fun k hk => ?_
  rw [get_group_flattenGroups df k hk]
  rw [show sort_values (sort_values (get_group df k)) = sort_values (get_group df k) from
    List.Sorted.insertionSort_eq (List.sorted_insertionSort tsLe _)]

/-! ## Invalid-timestamp lemmas for C10 -/

theorem pd_to_datetime_inBounds (s : String) (d : DateTime)
    (h : pd_to_datetime s = some d) : inBounds d = true := by
  unfold pd_to_datetime at h
  split at h
  · split at h
    · injection h with h2
      subst h2
      assumption
    · cases h
  · cases h

theorem normalizeRow_NaT (raw : RawRow)
    (h : pd_to_datetime raw.timestamp = none) :
    (normalizeRow raw).timestamp = TsVal.NaT ∧
    (normalizeRow raw).iso_year = some 0 ∧
    (normalizeRow raw).iso_week = some 0 := by
  simp [normalizeRow, h]

theorem normalizeRow_parsed (raw : RawRow) (d : DateTime)
    (h : pd_to_datetime raw.timestamp = some d) :
    (normalizeRow raw).timestamp = TsVal.dt d ∧
    (normalizeRow raw).iso_year = some (isocalendar d).1 ∧
    (normalizeRow raw).iso_week = some (isocalendar d).2.1 := by
  simp [normalizeRow, h]

theorem mem_get_data (rows : List RawRow) (r : Row)
    (hr : r ∈ (get_data (.ok rows)).df.rows) :
    ∃ raw ∈ rows, r = normalizeRow raw := by
  simp only [get_data] at hr
  split at hr
  · simp at hr
  · rw [show (⟨⟨canonicalCols, rows.map normalizeRow⟩, false⟩ :
        GetDataResult).df.rows = rows.map normalizeRow from rfl] at hr
    obtain ⟨raw, hraw, heq⟩ := List.mem_map.1 hr
    exact ⟨raw, hraw, heq.symm⟩

theorem get_data_length (rows : List RawRow) :
    (get_data (.ok rows)).df.rows.length = rows.length := by
  simp only [get_data]
  split
  · simp_all [List.isEmpty_iff]
  · simp

theorem keyLt_zero_of_pos (k : Int × Int) (h : 0 < k.1) : keyLt (0, 0) k := by
  unfold keyLt
  exact Or.inl h

/-- Every group key of a loaded collection is the invalid marker `(0, 0)`
or a real ISO key, which is strictly larger. -/
theorem get_data_key_cases (rows : List RawRow) (k : Int × Int)
    (hk : k ∈ sortedKeysDesc (get_data (.ok rows)).df.rows) :
    k = (0, 0) ∨ keyLt (0, 0) k := by
  obtain ⟨r, hr, hkey⟩ := (mem_sortedKeysDesc_iff _ k).1 hk
  obtain ⟨raw, _, heq⟩ := mem_get_data rows r hr
  obtain ⟨hy, hw⟩ := (rowKey_eq_iff r k).1 hkey
  rcases hp : pd_to_datetime raw.timestamp with _ | d
  · left
    have h0 := normalizeRow_NaT raw hp
    rw [heq, h0.2.1] at hy
    rw [heq, h0.2.2] at hw
    have e1 : (0 : Int) = k.1 := Option.some.inj hy
    have e2 : (0 : Int) = k.2 := Option.some.inj hw
    obtain ⟨k1, k2⟩ := k
    simp only [Prod.mk.injEq]
    exact ⟨e1.symm, e2.symm⟩
  · right
    have hb := (inBounds_iff d).1 (pd_to_datetime_inBounds raw.timestamp d hp)
    have hlb := isocalendar_year_lb d
    have hiso := normalizeRow_parsed raw d hp
    rw [heq, hiso.2.1] at hy
    have e1 : (isocalendar d).1 = k.1 := Option.some.inj hy
    exact keyLt_zero_of_pos k (by omega)

/-- In a strictly descending key list whose members are `(0, 0)` or
greater, `(0, 0)` can only be the last element. -/
theorem zero_key_last (l : List (Int × Int))
    (hp : List.Pairwise (fun a b => keyLt b a) l)
    (hall : ∀ k ∈ l, k = (0, 0) ∨ keyLt (0, 0) k)
    (hm : (0, 0) ∈ l) : l.getLast? = some (0, 0) := by
  induction l with
  | nil => simp at hm
  | cons a t ih =>
    cases t with
    | nil =>
      simp only [List.mem_singleton] at hm
      simp [hm]
    | cons b t2 =>
      rw [show (a :: b :: t2).getLast? = (b :: t2).getLast? from rfl]
      refine ih hp.tail (fun k hk => hall k (List.mem_cons_of_mem a hk)) ?_
      rcases List.mem_cons.1 hm with h0 | h0
      · exfalso
        have hba : keyLt b a :=
          (List.pairwise_cons.1 hp).1 b (List.mem_cons_self b t2)
        rw [← h0] at hba
        rcases hall b (List.mem_cons_of_mem a (List.mem_cons_self b t2)) with hb0 | hb0
        · rw [hb0] at hba
          exact keyLt_irrefl _ hba
        · exact keyLt_asymm _ _ hb0 hba
      · exact h0

theorem currentWeekKey_ne_zero (now : DateTime) (hb : inBounds now = true) :
    currentWeekKey now ≠ (0, 0) := by
  intro h
  have h1 := isocalendar_year_lb now
  have h2 := (inBounds_iff now).1 hb
  have h3 : (isocalendar now).1 = (0 : Int) := congrArg Prod.fst h
  omega

theorem NaT_not_in_week_scope (rows : List RawRow) (now : DateTime)
    (hb : inBounds now = true) (r : Row)
    (hr : r ∈ (get_data (.ok rows)).df.rows) (hts : r.timestamp = TsVal.NaT) :
    r ∉ week_scope (get_data (.ok rows)).df.rows now := by
  intro hmem
  obtain ⟨raw, _, heq⟩ := mem_get_data rows r hr
  have hcond := (List.mem_filter.1 hmem).2
  rw [decide_eq_true_eq] at hcond
  rcases hp : pd_to_datetime raw.timestamp with _ | d
  · have h0 := normalizeRow_NaT raw hp
    have hyr := hcond.1
    rw [heq, h0.2.1] at hyr
    have hk1 : (0 : Int) = (isocalendar now).1 := Option.some.inj hyr
    have h1 := isocalendar_year_lb now
    have h2 := (inBounds_iff now).1 hb
    omega
  · rw [heq, (normalizeRow_parsed raw d hp).1] at hts
    exact TsVal.noConfusion hts

/-- C10: a row whose stored timestamp does not parse is kept by `get_data`
with `NaT` timestamp and derived key `(0, 0)`; that key sorts after every
real week in the descending display order, can never equal the
current-week key, and such rows are never part of the AI-summary scope. -/
theorem C10_invalid_timestamps (rows : List RawRow) (raw : RawRow)
    (now : DateTime) (hnow : inBounds now = true)
    (hbad : pd_to_datetime raw.timestamp = none) :
    (get_data (.ok rows)).df.rows.length = rows.length ∧
    (normalizeRow raw).timestamp = TsVal.NaT ∧
    (normalizeRow raw).iso_year = some 0 ∧
    (normalizeRow raw).iso_week = some 0 ∧
    rowKey (normalizeRow raw) = some (0, 0) ∧
    ((0, 0) ∈ sortedKeysDesc (get_data (.ok rows)).df.rows →
      (sortedKeysDesc (get_data (.ok rows)).df.rows).getLast? = some (0, 0)) ∧
    currentWeekKey now ≠ (0, 0) ∧
    (∀ r ∈ (get_data (.ok rows)).df.rows, r.timestamp = TsVal.NaT →
      r ∉ week_scope (get_data (.ok rows)).df.rows now) := by
  obtain ⟨ht, hy, hw⟩ := normalizeRow_NaT raw hbad
  refine ⟨get_data_length rows, ht, hy, hw,
    (rowKey_eq_iff _ _).2 ⟨hy, hw⟩, ?_,
    currentWeekKey_ne_zero now hnow,
    fun r hr hts => NaT_not_in_week_scope rows now hnow r hr hts⟩
  intro hmem
  exact zero_key_last _ (sortedKeysDesc_strict _)
    (fun k hk => get_data_key_cases rows k hk) hmem

/-- A stored row whose timestamp cell does not parse. -/
def sampleRawBad : RawRow := ⟨"not a date", "junk", none⟩

/-- C10 witness: a store holding one valid and one unparseable row, viewed
on 2026-10-12. -/
theorem C10_invalid_timestamps_witness :
    (get_data (.ok [sampleRaw1, sampleRawBad])).df.rows.length = 2 ∧
    rowKey (normalizeRow sampleRawBad) = some (0, 0) ∧
    (sortedKeysDesc (get_data (.ok [sampleRaw1, sampleRawBad])).df.rows).getLast? =
      some (0, 0) ∧
    currentWeekKey ⟨2026, 10, 12, 15, 30, 0⟩ ≠ (0, 0) ∧
    normalizeRow sampleRawBad ∉
      week_scope (get_data (.ok [sampleRaw1, sampleRawBad])).df.rows
        ⟨2026, 10, 12, 15, 30, 0⟩ := by
  have T := C10_invalid_timestamps [sampleRaw1, sampleRawBad] sampleRawBad
    ⟨2026, 10, 12, 15, 30, 0⟩ (by decide) (by decide)
  exact ⟨T.1, T.2.2.2.2.1, T.2.2.2.2.2.1 (by decide), T.2.2.2.2.2.2.1,
    T.2.2.2.2.2.2.2 (normalizeRow sampleRawBad) (by decide) (by decide)⟩

end WorkLog
